import Mathlib

/-!
Verification development for the human-evaluation overlay of the
laser-chess-engine repository (`src/human_eval.cpp`, `src/human_eval.h`).

Bitboards (`uint64_t` occupancy masks) are embedded as finite sets of square
indices 0..63 (`Finset Nat`); `while (t) { sq = ctz(t); t &= t - 1; ... }`
loops over the set bits in ascending order become sums/filters over those
sets, which is faithful because every such loop body commutes.  C++ `int`
values become `Int`, with `Int.tdiv` for the truncating C++ division.
-/

set_option maxRecDepth 40000
set_option linter.unusedVariables false

namespace HumanEval

/-- Modelled from the spec: the read-only board query surface (`board.h` is an
external collaborator, not part of this excerpt): one occupancy set per
(side, piece kind), a king square per side, four independent castling wing
flags and the side to move. -/
structure Board where
  pieces : Nat → Nat → Finset Nat
  kingSq : Nat → Nat
  castleWK : Bool
  castleWQ : Bool
  castleBK : Bool
  castleBQ : Bool
  playerToMove : Nat

/-- Side encoding: the source computes the opponent as `1 - color`. -/
def WHITE : Nat := 0

def BLACK : Nat := 1

/-- Modelled from the spec: piece-kind indices.  The material loop walks
`pt + 1` for `pt = 0..4` against the values 100/320/330/500/900, i.e.
Pawn..Queen, so Pawn = 1 .. King = 6. -/
def PAWNS : Nat := 1

def KNIGHTS : Nat := 2

def BISHOPS : Nat := 3

def ROOKS : Nat := 4

def QUEENS : Nat := 5

def KINGS : Nat := 6

def getPieces (b : Board) (color pt : Nat) : Finset Nat := b.pieces color pt

def getKingSq (b : Board) (color : Nat) : Nat := b.kingSq color

/-- Modelled from the spec: `rights & WHITECASTLE` (resp. `BLACKCASTLE`) tests
whether either wing flag of that side is still set. -/
def canCastle (b : Board) (color : Nat) : Bool :=
  if color = WHITE then b.castleWK || b.castleWQ else b.castleBK || b.castleBQ

/-- All bitboards a board hands out are supported on squares 0..63, as any
`uint64_t` occupancy mask is. -/
def Board.wf (b : Board) : Prop :=
  ∀ c < 2, ∀ k < 7, ∀ sq ∈ b.pieces c k, sq < 64

instance (b : Board) : Decidable b.wf := by
  unfold Board.wf; infer_instance

/-- The file mask built by `for (r = 0; r < 8; r++) fm |= 1ULL << (f + r*8)`. -/
def fileMask (f : Nat) : Finset Nat := (Finset.range 8).image (fun r => f + r * 8)

/-- One rank of the board: bits `r*8 .. r*8+7` (e.g. `0xFF` is `rankMask 0`,
`0xFF << 56` is `rankMask 7`, `0xFF000000000000` is `rankMask 6`). -/
def rankMask (r : Nat) : Finset Nat := (Finset.range 8).image (fun f => f + r * 8)

/-- Truthiness of a masked bitboard, `(x & mask) != 0`. -/
def hasBits (s : Finset Nat) : Bool := decide (s ≠ ∅)

/-- Right shift of a `uint64_t` bitboard: bits below the shift are dropped. -/
def bbShr (s : Finset Nat) (k : Nat) : Finset Nat :=
  (s.filter (fun x => k ≤ x)).image (fun x => x - k)

/-- Left shift of a `uint64_t` bitboard: bits pushed past bit 63 are dropped. -/
def bbShl (s : Finset Nat) (k : Nat) : Finset Nat :=
  (s.image (fun x => x + k)).filter (fun x => x < 64)

/-- Mask `0xFEFEFEFEFEFEFEFE`: every square not on file a. -/
def maskNotFileA : Finset Nat := (Finset.range 64).filter (fun x => x % 8 ≠ 0)

/-- Mask `0x7F7F7F7F7F7F7F7F`: every square not on file h. -/
def maskNotFileH : Finset Nat := (Finset.range 64).filter (fun x => x % 8 ≠ 7)

-- ============================================================================
-- Structures from human_eval.h
-- ============================================================================

inductive PlayingStyle where
  | CLASSICAL
  | ATTACKING
  | TACTICAL
  | POSITIONAL
  | TECHNICAL
deriving DecidableEq, Repr

structure PawnStructure where
  isolated_count : Int := 0
  doubled_count : Int := 0
  backward_count : Int := 0
  passed_count : Int := 0
  candidate_count : Int := 0
  island_count : Int := 0
  avg_island_size : Int := 0
  connected_count : Int := 0
  phalanx_count : Int := 0
  has_chain : Bool := false
  chain_base : Int := -1
  chain_direction : Int := 0
deriving DecidableEq, Repr

structure PieceActivity where
  knight_activity : Int := 0
  bishop_activity : Int := 0
  rook_activity : Int := 0
  queen_activity : Int := 0
  total_activity : Int := 0
  has_outpost_knight : Bool := false
  has_bishop_long_diagonal : Bool := false
  has_rook_7th_rank : Bool := false
  has_rook_open_file : Bool := false
  has_queen_central : Bool := false
deriving DecidableEq, Repr

structure ImbalanceAnalysis where
  material : Int := 0
  pawn_structure : Int := 0
  space : Int := 0
  development : Int := 0
  initiative : Int := 0
  king_safety : Int := 0
  activity : Int := 0
  white_pawns : PawnStructure := {}
  black_pawns : PawnStructure := {}
  white_activity : PieceActivity := {}
  black_activity : PieceActivity := {}
  white_has_passed_pawn : Bool := false
  black_has_passed_pawn : Bool := false
  white_has_isolated : Bool := false
  black_has_isolated : Bool := false
  white_has_doubled : Bool := false
  black_has_doubled : Bool := false
  white_king_exposed : Bool := false
  black_king_exposed : Bool := false
  exchange_sacrifice : Bool := false
  pawn_sacrifice : Bool := false
  piece_sacrifice : Bool := false
  exchange_discount : Int := 0
  initiative_discount : Int := 0
  king_safety_discount : Int := 0
  minority_attack : Bool := false
  open_file : Bool := false
  rook_on_7th : Bool := false
  wrong_rook_pawn : Bool := false
  opposite_castling : Bool := false
  pawn_storm : Bool := false
  pawn_storm_strength : Int := 0
  is_endgame : Bool := false
  king_activity_white : Int := 0
  king_activity_black : Int := 0
  opposition_status : Int := 0
deriving DecidableEq, Repr

structure MoveExplanation where
  move_reasons : List String := []
  imbalance_notes : List String := []
  sacrifice_notes : List String := []
  plan_notes : List String := []
  pv_explanation : String := ""
deriving DecidableEq, Repr

inductive OppositionType where
  | NONE
  | DIRECT
  | DISTANT
  | DIAGONAL
  | HOLE
deriving DecidableEq, Repr

-- ============================================================================
-- Static tables
-- ============================================================================

def KNIGHT_OUTPOST : List Int :=
  [-5,-5,-5,-5,-5,-5,-5,-5, -5,0,0,0,0,0,0,-5, -5,0,5,5,5,5,0,-5, -5,0,5,10,10,5,0,-5,
   -5,0,5,10,10,5,0,-5, -5,0,3,5,5,3,0,-5, -5,0,0,0,0,0,0,-5, -5,-5,-5,-5,-5,-5,-5,-5]

def BISHOP_LONG_DIAGONAL : List Int :=
  [0,0,0,0,0,0,0,0, 0,0,0,0,0,0,0,0, 0,0,5,5,5,5,0,0, 0,0,5,10,10,5,0,0,
   0,0,5,10,15,5,0,0, 0,0,5,10,10,5,0,0, 0,0,5,5,5,5,0,0, 0,0,0,0,0,0,0,0]

def ROOK_7TH_RANK : List Int :=
  [0,0,0,0,0,0,0,0, 10,10,10,10,10,10,10,10, 0,0,0,0,0,0,0,0, 0,0,0,0,0,0,0,0,
   0,0,0,0,0,0,0,0, 0,0,0,0,0,0,0,0, 0,0,0,0,0,0,0,0, 0,0,0,0,0,0,0,0]

def KEY_SQUARES_WHITE : List Int :=
  [0,0,0,0,0,0,0,0, 0,0,0,0,0,0,0,0, 0,0,0,0,0,0,0,0, 0,0,0,5,5,0,0,0,
   0,0,0,5,5,0,0,0, 0,0,0,5,5,0,0,0, 0,0,0,0,0,0,0,0, 0,0,0,0,0,0,0,0]

-- ============================================================================
-- Pawn structure
-- ============================================================================

def isIsolatedPawn (b : Board) (color sq : Nat) : Bool :=
  let file := sq % 8
  let own := getPieces b color PAWNS
  if 0 < file && hasBits (own ∩ fileMask (file - 1)) then false
  else if file < 7 && hasBits (own ∩ fileMask (file + 1)) then false
  else true

/-- The source loop `for (int r = (color == WHITE ? 0 : rank + 1); r < rank; r++)`: note that
for Black the loop starts past its own upper bound and never runs. -/
def isDoubledPawn (b : Board) (color sq : Nat) : Bool :=
  let file := sq % 8
  let rank := sq / 8
  let own := getPieces b color PAWNS
  let lo := if color = WHITE then 0 else rank + 1
  (List.range rank).any (fun r => lo ≤ r && decide ((file + r * 8) ∈ own))

/-- The source checks `a >= 0` resp. `a < 64` only on the branch it mentions;
an index that is negative where the source would shift by a negative amount
(undefined behaviour) reads as "no pawn" here. -/
def isBackwardPawn (b : Board) (color sq : Nat) : Bool :=
  let file := sq % 8
  let own := getPieces b color PAWNS
  let opp := getPieces b (1 - color) PAWNS
  let psqi : Int := if color = WHITE then (sq : Int) + 8 else (sq : Int) - 8
  if psqi < 0 || 64 ≤ psqi then false
  else
    let psq := psqi.toNat
    let prot1 := 0 < file &&
      (let a : Int := if color = WHITE then (psq : Int) - 1 else (psq : Int) + 1
       0 ≤ a && decide (a.toNat ∈ own))
    let prot2 := file < 7 &&
      (let a : Int := if color = WHITE then (psq : Int) + 1 else (psq : Int) - 1
       0 ≤ a && a < 64 && decide (a.toNat ∈ own))
    let att := if color = WHITE then
        (bbShr opp 9 ∩ maskNotFileA) ∪ (bbShr opp 7 ∩ maskNotFileH)
      else
        (bbShl opp 9 ∩ maskNotFileH) ∪ (bbShl opp 7 ∩ maskNotFileA)
    !(prot1 || prot2) && decide (sq ∈ att)

/-- Note the source scans `own` (not `opp`) at the transposed index
`f * 8 + rank` over every file left resp. right of the pawn's file. -/
def isPassedPawn (b : Board) (color sq : Nat) : Bool :=
  let file := sq % 8
  let rank := sq / 8
  let own := getPieces b color PAWNS
  let opp := getPieces b (1 - color) PAWNS
  if (List.range file).any (fun f => decide ((f * 8 + rank) ∈ own)) then false
  else if (List.range 8).any (fun f => file < f && decide ((f * 8 + rank) ∈ own)) then false
  else
    let cr : Int := if color = WHITE then (rank : Int) + 1 else (rank : Int) - 1
    if 0 ≤ cr && cr < 8 then
      let crn := cr.toNat
      let m : Finset Nat := (if 0 < file then {file - 1 + crn * 8} else ∅) ∪
                            (if file < 7 then {file + 1 + crn * 8} else ∅)
      !(hasBits (opp ∩ m))
    else true

def isCandidatePawn (b : Board) (color sq : Nat) : Bool :=
  let file := sq % 8
  let rank := sq / 8
  let own := getPieces b color PAWNS
  let opp := getPieces b (1 - color) PAWNS
  let bsi : Int := if color = WHITE then (sq : Int) + 8 else (sq : Int) - 8
  if 0 ≤ bsi && bsi < 64 && decide (bsi.toNat ∈ own) then false
  else
    let fri : Int := if color = WHITE then (rank : Int) + 1 else (rank : Int) - 1
    let candidate :=
      if 0 ≤ fri && fri < 8 then
        let fr := fri.toNat
        let fm : Finset Nat := (if 0 < file then {file - 1 + fr * 8} else ∅) ∪
                               (if file < 7 then {file + 1 + fr * 8} else ∅)
        if hasBits (opp ∩ fm) then
          let ari : Int := if color = WHITE then (rank : Int) + 2 else (rank : Int) - 2
          if 0 ≤ ari && ari < 8 then
            let ar := ari.toNat
            let am : Finset Nat := (if 0 < file then {file - 1 + ar * 8} else ∅) ∪
                                   (if file < 7 then {file + 1 + ar * 8} else ∅)
            !(hasBits (opp ∩ am))
          else false
        else false
      else false
    candidate || isPassedPawn b color sq

/-- Neighbour squares in the order the BFS probes them:
`dx = \x7b-1,1,0,0\x7d, dy = \x7b0,0,-1,1\x7d` with board-bounds checks. -/
def islandNeighbors (sq : Nat) : List Nat :=
  let f := sq % 8
  let r := sq / 8
  (if 0 < f then [sq - 1] else []) ++ (if f < 7 then [sq + 1] else []) ++
  (if 0 < r then [sq - 8] else []) ++ (if r < 7 then [sq + 8] else [])

/-- One BFS flood fill over the pawn set; returns the component size and the
updated visited map.  Fuel 128 strictly exceeds the at most 64 pops the queue
can ever see (every pushed square is marked visited at push time). -/
def islandBFS (p : Finset Nat) :
    Nat → List Nat → (Nat → Bool) → Nat → Nat × (Nat → Bool)
  | 0, _, v, acc => (acc, v)
  | _ + 1, [], v, acc => (acc, v)
  | fuel + 1, cur :: rest, v, acc =>
    let next := (islandNeighbors cur).filter (fun ns => decide (ns ∈ p) && !(v ns))
    let v2 := next.foldl (fun vv ns => fun x => if x = ns then true else vv x) v
    islandBFS p fuel (rest ++ next) v2 (acc + 1)

/-- Translation of `countPawnIslands`: scan the set bits in ascending (ctz) order, flood
filling each unvisited pawn; returns (island count, truncated average size).
The sizes sum to the pawn count, so the average divides the pawn total. -/
def countPawnIslands (b : Board) (color : Nat) : Int × Int :=
  let p := getPieces b color PAWNS
  let scan := (List.range 64).foldl
    (fun (st : List Nat × (Nat → Bool)) sq =>
      if decide (sq ∈ p) && !(st.2 sq) then
        let v1 := fun x => if x = sq then true else st.2 x
        let r := islandBFS p 128 [sq] v1 0
        (st.1 ++ [r.1], r.2)
      else st)
    ([], fun _ => false)
  let islands := scan.1.length
  let total := scan.1.foldl (· + ·) 0
  ((islands : Int), if 0 < islands then ((total / islands : Nat) : Int) else 0)

def analyzePawnStructure (b : Board) (color : Nat) : PawnStructure :=
  let p := getPieces b color PAWNS
  let isolated : Int := ((p.filter (fun sq => isIsolatedPawn b color sq = true)).card : Int)
  let doubled : Int := ((p.filter (fun sq => isDoubledPawn b color sq = true)).card : Int)
  let backward : Int := ((p.filter (fun sq => isBackwardPawn b color sq = true)).card : Int)
  let passed : Int := ((p.filter (fun sq => isPassedPawn b color sq = true)).card : Int)
  let candidate : Int := ((p.filter (fun sq => isCandidatePawn b color sq = true)).card : Int)
  let islands := countPawnIslands b color
  let connected : Int := (p.card : Int) - isolated
  let phalanx : Int := ((p.filter (fun sq => sq % 8 < 7 && decide ((sq + 1) ∈ p))).card : Int)
  let plist := (List.range 64).filter (fun sq => decide (sq ∈ p))
  let minr : Int := plist.foldl (fun m sq => min m ((sq / 8 : Nat) : Int)) 8
  let maxr : Int := plist.foldl (fun m sq => max m ((sq / 8 : Nat) : Int)) (-1)
  { isolated_count := isolated
    doubled_count := doubled
    backward_count := backward
    passed_count := passed
    candidate_count := candidate
    island_count := islands.1
    avg_island_size := islands.2
    connected_count := connected
    phalanx_count := phalanx
    has_chain := decide (2 ≤ maxr - minr)
    chain_base := if 2 ≤ maxr - minr then (if color = WHITE then maxr else minr) else -1
    chain_direction := 0 }

-- ============================================================================
-- Piece activity
-- ============================================================================

def evaluateKnight (b : Board) (color sq : Nat) : Int :=
  let f : Int := (sq % 8 : Nat)
  let r : Int := (sq / 8 : Nat)
  KNIGHT_OUTPOST.getD sq 0 + (7 - (((f - 3).natAbs : Int) + ((r - 3).natAbs : Int))) * 3

def evaluateBishop (b : Board) (color sq : Nat) : Int :=
  let f : Int := (sq % 8 : Nat)
  let r : Int := (sq / 8 : Nat)
  let s := BISHOP_LONG_DIAGONAL.getD sq 0 +
    (7 - (((f - 3).natAbs : Int) + ((r - 3).natAbs : Int))) * 3
  if 2 ≤ (getPieces b color BISHOPS).card then s + 30 else s

def evaluateRook (b : Board) (color sq : Nat) : Int :=
  let f := sq % 8
  let r := sq / 8
  let s : Int := if (color = WHITE && r = 6) || (color = BLACK && r = 1)
    then ROOK_7TH_RANK.getD sq 0 else 0
  let pawns := getPieces b color PAWNS
  if !(hasBits (pawns ∩ fileMask f)) then s + 20
  else if !(decide ((if color = WHITE then 56 + f else f) ∈ pawns)) then s + 10
  else s

def evaluateQueen (b : Board) (color sq : Nat) : Int :=
  let f : Int := (sq % 8 : Nat)
  let rk := sq / 8
  let s : Int := (7 - (((f - 3).natAbs : Int) + ((((rk : Nat) : Int) - 3).natAbs : Int))) * 4
  if ((color = WHITE && 3 < rk) || (color = BLACK && rk < 4)) &&
     (hasBits (getPieces b color KNIGHTS) || hasBits (getPieces b color BISHOPS))
  then s - 15 else s

/-- The per-kind activity fields are never written by the source function and
keep their zero initialisation; only the total and the flags are computed. -/
def analyzePieceActivity (b : Board) (color : Nat) : PieceActivity :=
  let kn := getPieces b color KNIGHTS
  let bi := getPieces b color BISHOPS
  let rk := getPieces b color ROOKS
  let qu := getPieces b color QUEENS
  { knight_activity := 0
    bishop_activity := 0
    rook_activity := 0
    queen_activity := 0
    total_activity :=
      (kn.sum fun sq => evaluateKnight b color sq) +
      (bi.sum fun sq => evaluateBishop b color sq) +
      (rk.sum fun sq => evaluateRook b color sq) +
      (qu.sum fun sq => evaluateQueen b color sq)
    has_outpost_knight := decide (∃ sq ∈ kn, 10 < evaluateKnight b color sq)
    has_bishop_long_diagonal := decide (∃ sq ∈ bi, 10 < evaluateBishop b color sq)
    has_rook_7th_rank := decide (∃ sq ∈ rk, 15 < evaluateRook b color sq)
    has_rook_open_file := decide (∃ sq ∈ rk, 20 ≤ evaluateRook b color sq)
    has_queen_central := false }

-- ============================================================================
-- King safety
-- ============================================================================

def evaluateKingSafety (b : Board) (color : Nat) : Int :=
  let ks := getKingSq b color
  let f := ks % 8
  if !(canCastle b color) then
    let s1 : Int := if (color = WHITE && 56 ≤ ks) || (color = BLACK && ks ≤ 7) then -25 else 0
    let pawns := getPieces b color PAWNS
    let s2 : Int := if color = WHITE
      then (if 5 ∈ pawns then 5 else 0) + (if 6 ∈ pawns then 5 else 0)
      else (if 61 ∈ pawns then 5 else 0) + (if 62 ∈ pawns then 5 else 0)
    let s3 : Int := if f ≤ 1 || 6 ≤ f then -10 else 0
    s1 + s2 + s3
  else 20

-- ============================================================================
-- Initiative
-- ============================================================================

/-- The centre box `f, r` both in 2..5 used by `countForcingMoves`. -/
def inCenterBox (sq : Nat) : Bool :=
  decide (2 ≤ sq % 8 ∧ sq % 8 ≤ 5 ∧ 2 ≤ sq / 8 ∧ sq / 8 ≤ 5)

/-- Note the advanced-pawn term: for White the code masks rank 7 (bits 48..55)
but then shifts right by 56, so the popcount is always zero; for Black it
masks `0xFF` (bits 0..7, board rank 1) and shifts left by 56. -/
def countForcingMoves (b : Board) (color : Nat) : Int :=
  let knights := getPieces b color KNIGHTS
  let bishops := getPieces b color BISHOPS
  let rooks := getPieces b color ROOKS
  let queens := getPieces b color QUEENS
  let pawns := getPieces b color PAWNS
  let bq := bishops ∪ queens
  let bqCount : Int := bq.sum fun sq => if inCenterBox sq then 2 else 1
  let rq := rooks ∪ queens
  let rqCount : Int := rq.sum fun sq =>
    if hasBits (pawns ∩ fileMask (sq % 8)) then 1 else 2
  let advPawns : Finset Nat :=
    if color = WHITE then bbShr (pawns ∩ rankMask 6) 56 else bbShl (pawns ∩ rankMask 0) 56
  (knights.card : Int) + bqCount + rqCount + (advPawns.card : Int) * 2

/-- The `color` parameter is accepted but unused, exactly as in the source:
the score is computed in White-positive terms from the absolute squares
e2/d2/e7/d7. -/
def assessPawnBreakTiming (b : Board) (color : Nat) : Int :=
  let white_pawns := getPieces b WHITE PAWNS
  let black_pawns := getPieces b BLACK PAWNS
  let white_e4_ready := decide (12 ∈ white_pawns)
  let white_d4_ready := decide (11 ∈ white_pawns)
  let black_e5_ready := decide (52 ∈ black_pawns)
  let black_d5_ready := decide (51 ∈ black_pawns)
  (if white_e4_ready && !black_e5_ready then (15 : Int) else 0) +
  (if white_d4_ready && !black_d5_ready then 15 else 0) -
  (if black_e5_ready && !white_e4_ready then 15 else 0) -
  (if black_d5_ready && !white_d4_ready then 15 else 0)

/-- The extended 8-square "center" bitboard of `evaluateInitiative`:
d4, e4, d5, e5, c4, f5, d3, e6. -/
def centerSquares : Finset Nat := {27, 28, 35, 36, 26, 37, 19, 44}

/-- The squares on which `centerSquares` fails to be mirror-symmetric: the
four one-sided center squares c4, f5, d3, e6 together with their vertical
reflections c5, f4, d6, e3. -/
def asymCenterSquares : Finset Nat := {26, 37, 19, 44, 34, 29, 43, 20}

/-- The vertical reflection of `centerSquares`. -/
def mirrorCenterPre : Finset Nat := {35, 36, 27, 28, 34, 29, 43, 20}

/-- The back-rank mask for the "active pieces" term is
`(0xFF << 56) | 0xFF` for White but only `0xFF` for Black, as in the source. -/
def evaluateInitiative (b : Board) (color : Nat) : Int :=
  let forcing_moves := countForcingMoves b color
  let opp_forcing_moves := countForcingMoves b (1 - color)
  let s1 : Int :=
    if b.playerToMove = color then
      if opp_forcing_moves < forcing_moves then 20
      else if forcing_moves = opp_forcing_moves then 10
      else 5
    else
      if forcing_moves + 2 < opp_forcing_moves then -10
      else if forcing_moves < opp_forcing_moves then -5
      else 0
  let br : Finset Nat := if color = WHITE then rankMask 7 ∪ rankMask 0 else rankMask 0
  let act := (getPieces b color KNIGHTS ∪ getPieces b color BISHOPS ∪
              getPieces b color ROOKS ∪ getPieces b color QUEENS) \ br
  let s2 : Int := (act.card : Int) * 3
  let pawns := getPieces b color PAWNS
  let s3 : Int := (Finset.range 8).sum fun f =>
    if hasBits (pawns ∩ fileMask f) then (0 : Int) else 3
  let break_score := assessPawnBreakTiming b color
  let s4 : Int := if color = WHITE then break_score else -break_score
  let own_center := centerSquares ∩
    (pawns ∪ (getPieces b color KNIGHTS ∪ getPieces b color BISHOPS))
  s1 + s2 + s3 + s4 + (own_center.card : Int) * 2

-- ============================================================================
-- Typical plans
-- ============================================================================

def detectMinorityAttack (b : Board) (color : Nat) : Bool :=
  let p := getPieces b color PAWNS
  let qs := fileMask 0 ∪ fileMask 1 ∪ fileMask 2
  let ks := fileMask 5 ∪ fileMask 6 ∪ fileMask 7
  let qsc := (p ∩ qs).card
  let ksc := (p ∩ ks).card
  decide (qsc ≤ 2 ∧ qsc < ksc)

def detectRookOnOpenFile (b : Board) (color : Nat) : Bool :=
  let r := getPieces b color ROOKS
  let p := getPieces b color PAWNS
  (List.range 8).any fun f => !(hasBits (p ∩ fileMask f)) && hasBits (r ∩ fileMask f)

def detectRookOn7th (b : Board) (color : Nat) : Bool :=
  let r := getPieces b color ROOKS
  let rank := if color = WHITE then 6 else 1
  (List.range 8).any fun f => decide ((f + rank * 8) ∈ r)

-- ============================================================================
-- Attacking patterns - pawn storm
-- ============================================================================

def detectOppositeCastling (b : Board) : Bool :=
  let white_kside := !b.castleWQ
  let black_qside := !b.castleBK
  let white_qside := !b.castleWK
  let black_kside := !b.castleBQ
  (white_kside && black_qside) || (white_qside && black_kside)

def countPawnStorm (b : Board) (color : Nat) : Int :=
  let pawns := getPieces b color PAWNS
  pawns.sum fun sq =>
    let file := sq % 8
    let rank := sq / 8
    if color = WHITE then
      if (5 ≤ file && file ≤ 7) || (5 ≤ file && file ≤ 7 && 2 ≤ rank) then
        if file = 5 then
          (if rank = 1 && !(decide ((5 + 2 * 8) ∈ getPieces b WHITE PAWNS)) then (3 : Int)
           else if rank = 2 then 2 else 0)
        else if file = 6 then
          (if rank = 1 && !(decide ((6 + 2 * 8) ∈ getPieces b WHITE PAWNS)) then 4
           else if rank = 2 then 3 else 0)
        else if file = 7 then
          (if rank = 1 && !(decide ((7 + 2 * 8) ∈ getPieces b WHITE PAWNS)) then 3
           else if rank = 2 then 2 else 0)
        else 0
      else 0
    else
      if (5 ≤ file && file ≤ 7) || (5 ≤ file && file ≤ 7 && rank ≤ 5) then
        if file = 5 then
          (if rank = 6 && !(decide ((5 + 5 * 8) ∈ getPieces b BLACK PAWNS)) then (3 : Int)
           else if rank = 5 then 2 else 0)
        else if file = 6 then
          (if rank = 6 && !(decide ((6 + 5 * 8) ∈ getPieces b BLACK PAWNS)) then 4
           else if rank = 5 then 3 else 0)
        else if file = 7 then
          (if rank = 6 && !(decide ((7 + 5 * 8) ∈ getPieces b BLACK PAWNS)) then 3
           else if rank = 5 then 2 else 0)
        else 0
      else 0

def evaluatePawnStorm (b : Board) (color : Nat) : Int :=
  if !(detectOppositeCastling b) then 0
  else countPawnStorm b color * 5

def isKingVulnerableToStorm (b : Board) (color : Nat) : Bool :=
  if !(detectOppositeCastling b) then false
  else
    let king_sq := getKingSq b color
    let file := king_sq % 8
    if color = WHITE then file ≤ 1 || 56 ≤ king_sq
    else file ≤ 1 || king_sq ≤ 7

-- ============================================================================
-- Endgame principles
-- ============================================================================

def evaluateEndgameKing (b : Board) (color : Nat) : Int :=
  let ks := getKingSq b color
  let oks := getKingSq b (1 - color)
  let kf : Int := (ks % 8 : Nat)
  let kr : Int := (ks / 8 : Nat)
  let okf : Int := (oks % 8 : Nat)
  let okr : Int := (oks / 8 : Nat)
  let center_dist : Int := ((kf - 4).natAbs : Int) + ((kr - 4).natAbs : Int)
  let opp_center : Int := ((okf - 4).natAbs : Int) + ((okr - 4).natAbs : Int)
  (if center_dist < opp_center then (opp_center - center_dist) * 10 else 0) +
  KEY_SQUARES_WHITE.getD ks 0

def getOppositionType (b : Board) : OppositionType :=
  let wk := getKingSq b WHITE
  let bk := getKingSq b BLACK
  let fd := (((wk % 8 : Nat) : Int) - ((bk % 8 : Nat) : Int)).natAbs
  let rd := (((wk / 8 : Nat) : Int) - ((bk / 8 : Nat) : Int)).natAbs
  if fd = rd && fd % 2 = 1 then OppositionType.DIAGONAL
  else if rd = 0 && 0 < fd then
    (if fd % 2 = 1 then OppositionType.DIRECT
     else if fd = 2 then OppositionType.DISTANT
     else if 2 < fd then OppositionType.DISTANT
     else OppositionType.NONE)
  else if fd = 0 && 0 < rd then
    (if rd % 2 = 1 then OppositionType.DIRECT
     else if rd = 2 then OppositionType.DISTANT
     else if 2 < rd then OppositionType.DISTANT
     else OppositionType.NONE)
  else OppositionType.NONE

def evaluateOpposition (b : Board) (color : Nat) : Int :=
  let opp := getOppositionType b
  if opp = OppositionType.DIRECT then
    let white_to_move := b.playerToMove = WHITE
    if color = WHITE then (if white_to_move then 30 else -30)
    else (if white_to_move then -30 else 30)
  else if opp = OppositionType.DISTANT then (if color = WHITE then 15 else -15)
  else if opp = OppositionType.DIAGONAL then (if color = WHITE then 10 else -10)
  else 0

/-- For every rook, scan ranks 0 upward for the first pawn on the rook's file
(`break` after it), and score ±15/−25 when the rook is behind that pawn. -/
def evaluateRookPlacement (b : Board) (color : Nat) : Int :=
  let rooks := getPieces b color ROOKS
  let pawns := getPieces b color PAWNS
  rooks.sum fun rsq =>
    let rf := rsq % 8
    let rr := rsq / 8
    let r_color := (rr + rf) % 2
    match (List.range 8).find? (fun r => decide ((rf + r * 8) ∈ pawns)) with
    | none => 0
    | some pr =>
      let p_color := (pr + rf) % 2
      let rook_behind := (color = WHITE && rr < pr) || (color = BLACK && pr < rr)
      if rook_behind then (if r_color = p_color then (-25 : Int) else 15) else 0

def evaluatePatience (b : Board) (color : Nat) : Int :=
  let w_piece_count := (getPieces b WHITE KNIGHTS ∪ getPieces b WHITE BISHOPS ∪
                        getPieces b WHITE ROOKS ∪ getPieces b WHITE QUEENS).card
  let b_piece_count := (getPieces b BLACK KNIGHTS ∪ getPieces b BLACK BISHOPS ∪
                        getPieces b BLACK ROOKS ∪ getPieces b BLACK QUEENS).card
  if w_piece_count = 0 && b_piece_count = 0 then
    if getOppositionType b = OppositionType.DIRECT then
      let white_to_move := b.playerToMove = WHITE
      if (color = WHITE && white_to_move) || (color = BLACK && !white_to_move) then 40 else 0
    else 0
  else 0

def evaluateEndgame (b : Board) (color : Nat) : Int :=
  evaluateEndgameKing b color + evaluateOpposition b color +
  evaluateRookPlacement b color + evaluatePatience b color

-- ============================================================================
-- Material imbalance
-- ============================================================================

/-- Returns (fired, discount); the C++ out-parameter is written only when the
function returns true. -/
def detectExchangeSacrifice (b : Board) (color : Nat) : Bool × Int :=
  let r : Int := ((getPieces b color ROOKS).card : Int)
  let orr : Int := ((getPieces b (1 - color) ROOKS).card : Int)
  let m : Int := ((getPieces b color KNIGHTS).card : Int) +
                 ((getPieces b color BISHOPS).card : Int)
  let om : Int := ((getPieces b (1 - color) KNIGHTS).card : Int) +
                  ((getPieces b (1 - color) BISHOPS).card : Int)
  if r < orr ∧ om < m then (true, (orr - r) * 500 - (m - om) * 330) else (false, 0)

-- ============================================================================
-- Main evaluation
-- ============================================================================

def materialScore (b : Board) : Int :=
  ((List.range 5).map fun pt =>
    (((getPieces b WHITE (pt + 1)).card : Int) - ((getPieces b BLACK (pt + 1)).card : Int)) *
      [100, 320, 330, 500, 900].getD pt 0).foldl (· + ·) 0

/-- Lines 1035-1039 of the source: the pawn-structure differential before the
endgame block touches it. -/
def pawnStructureScore (b : Board) : Int :=
  let wp := analyzePawnStructure b WHITE
  let bp := analyzePawnStructure b BLACK
  wp.passed_count * 30 - bp.passed_count * 30 -
  (wp.isolated_count * 25 + bp.isolated_count * 25) -
  (wp.backward_count * 20 + bp.backward_count * 20) -
  (wp.doubled_count * 15 + bp.doubled_count * 15) +
  (bp.island_count - wp.island_count) * 10

def spaceScore (b : Board) : Int :=
  let wm := getPieces b WHITE PAWNS ∪ getPieces b WHITE KNIGHTS ∪ getPieces b WHITE BISHOPS ∪
            getPieces b WHITE ROOKS ∪ getPieces b WHITE QUEENS ∪ getPieces b WHITE KINGS
  let bm := getPieces b BLACK PAWNS ∪ getPieces b BLACK KNIGHTS ∪ getPieces b BLACK BISHOPS ∪
            getPieces b BLACK ROOKS ∪ getPieces b BLACK QUEENS ∪ getPieces b BLACK KINGS
  let ws := (wm.filter (fun sq => sq < 32)).card
  let bs := (bm.filter (fun sq => 32 ≤ sq ∧ sq < 64)).card
  ((ws : Int) - (bs : Int)) * 5

def developmentScore (b : Board) : Int :=
  let wnp := getPieces b WHITE KNIGHTS ∪ getPieces b WHITE BISHOPS ∪
             getPieces b WHITE ROOKS ∪ getPieces b WHITE QUEENS
  let bnp := getPieces b BLACK KNIGHTS ∪ getPieces b BLACK BISHOPS ∪
             getPieces b BLACK ROOKS ∪ getPieces b BLACK QUEENS
  let wd := (wnp \ (rankMask 7 ∪ rankMask 0)).card
  let bd_dev := (bnp \ rankMask 0).card
  ((wd : Int) - (bd_dev : Int)) * 30

def calculatePositionalDiscounts (ia : ImbalanceAnalysis) (style : PlayingStyle) :
    ImbalanceAnalysis :=
  let ia1 :=
    match style with
    | PlayingStyle.ATTACKING =>
        { ia with exchange_discount := ia.exchange_discount * 2, initiative_discount := 50 }
    | PlayingStyle.TACTICAL =>
        { ia with exchange_discount := ia.exchange_discount * 2, initiative_discount := 50 }
    | PlayingStyle.POSITIONAL =>
        { ia with exchange_discount := Int.tdiv ia.exchange_discount 2 }
    | PlayingStyle.TECHNICAL =>
        { ia with exchange_discount := Int.tdiv ia.exchange_discount 2 }
    | PlayingStyle.CLASSICAL => ia
  let ia2 := if ia1.black_king_exposed then { ia1 with king_safety_discount := 50 } else ia1
  if ia2.white_king_exposed then { ia2 with king_safety_discount := -50 } else ia2

/-- The aggregator `analyzeImbalances`, with the process-wide `current_style` global made an
explicit argument (it is only read, never written, during aggregation).  The
sequential field mutations of the source become one record whose fields hold
the final value each mutation chain produces. -/
def analyzeImbalances (style : PlayingStyle) (b : Board) : ImbalanceAnalysis :=
  let material := materialScore b
  let white_pawns := analyzePawnStructure b WHITE
  let black_pawns := analyzePawnStructure b BLACK
  let white_activity := analyzePieceActivity b WHITE
  let black_activity := analyzePieceActivity b BLACK
  let wsac := detectExchangeSacrifice b WHITE
  let bsac := detectExchangeSacrifice b BLACK
  let d1 : Int := if wsac.1 then wsac.2 else 0
  let d2 : Int := if bsac.1 then -bsac.2 else d1
  let isEg := material < 2500
  let w_eg := evaluateEndgame b WHITE
  let b_eg := evaluateEndgame b BLACK
  let opposite := detectOppositeCastling b
  let ia0 : ImbalanceAnalysis :=
    { material := material
      pawn_structure := pawnStructureScore b +
        (if isEg then Int.tdiv (w_eg - b_eg) 5 else 0)
      space := spaceScore b
      development := developmentScore b
      initiative := (if b.playerToMove = WHITE then (10 : Int) else -10) +
        (evaluateInitiative b WHITE - evaluateInitiative b BLACK)
      king_safety := evaluateKingSafety b WHITE - evaluateKingSafety b BLACK
      activity := white_activity.total_activity - black_activity.total_activity
      white_pawns := white_pawns
      black_pawns := black_pawns
      white_activity := white_activity
      black_activity := black_activity
      white_has_passed_pawn := decide (0 < white_pawns.passed_count)
      black_has_passed_pawn := decide (0 < black_pawns.passed_count)
      white_has_isolated := decide (0 < white_pawns.isolated_count)
      black_has_isolated := decide (0 < black_pawns.isolated_count)
      white_has_doubled := decide (0 < white_pawns.doubled_count)
      black_has_doubled := decide (0 < black_pawns.doubled_count)
      white_king_exposed := !(canCastle b WHITE) && decide (56 ≤ getKingSq b WHITE)
      black_king_exposed := !(canCastle b BLACK) && decide (getKingSq b BLACK ≤ 7)
      exchange_sacrifice := wsac.1 || bsac.1
      pawn_sacrifice := false
      piece_sacrifice := false
      exchange_discount := d2
      initiative_discount := 0
      king_safety_discount :=
        if opposite then
          (if isKingVulnerableToStorm b WHITE then (-30 : Int) else 0) +
          (if isKingVulnerableToStorm b BLACK then 30 else 0)
        else 0
      minority_attack := detectMinorityAttack b WHITE
      open_file := detectRookOnOpenFile b WHITE
      rook_on_7th := detectRookOn7th b WHITE
      wrong_rook_pawn := false
      opposite_castling := opposite
      pawn_storm := opposite
      pawn_storm_strength :=
        if opposite then evaluatePawnStorm b WHITE - evaluatePawnStorm b BLACK else 0
      is_endgame := decide isEg
      king_activity_white := if isEg then w_eg else 0
      king_activity_black := if isEg then b_eg else 0
      opposition_status := if isEg then evaluateOpposition b WHITE else 0 }
  calculatePositionalDiscounts ia0 style

/-- The `imbalance_notes` pushed by `explainMove`, in source order. -/
def explainImbalanceNotes (ia : ImbalanceAnalysis) : List String :=
  (if 100 < ia.material then ["Mat +" ++ toString (Int.tdiv ia.material 100) ++ ".0"] else []) ++
  (if ia.material < -100 then ["Mat " ++ toString (Int.tdiv ia.material 100) ++ ".0"] else []) ++
  (if 0 < ia.white_pawns.passed_count then ["Passed pawn"] else []) ++
  (if 0 < ia.black_pawns.passed_count then ["Opp passed pawn"] else []) ++
  (if 0 < ia.white_pawns.isolated_count then ["Isolani"] else []) ++
  (if 0 < ia.black_pawns.isolated_count then ["Opp isolani"] else []) ++
  (if 15 < ia.initiative then ["Strong initiative"] else []) ++
  (if ia.white_king_exposed then ["King safety concern"] else []) ++
  (if ia.black_king_exposed then ["Opp king exposed"] else []) ++
  (if ia.is_endgame && decide (ia.king_activity_black < ia.king_activity_white)
   then ["Active king"] else []) ++
  (if ia.king_safety_discount < -10 then ["King exposed to storm"] else []) ++
  (if 10 < ia.king_safety_discount then ["Opp king exposed to storm"] else [])

/-- The `move_reasons` pushed by `explainMove`, in source order. -/
def explainMoveReasons (ia : ImbalanceAnalysis) : List String :=
  (if 15 < ia.initiative then ["Maintain initiative"] else []) ++
  (if ia.white_king_exposed then ["Defend king"] else []) ++
  (if ia.black_king_exposed then ["Attack!"] else []) ++
  (if 60 < ia.development then ["Better development"] else [])

/-- The `plan_notes` pushed by `explainMove`, in source order. -/
def explainPlanNotes (ia : ImbalanceAnalysis) : List String :=
  (if ia.minority_attack then ["Minority attack"] else []) ++
  (if ia.open_file then ["Open file"] else []) ++
  (if ia.rook_on_7th then ["7th rank"] else []) ++
  (if 0 < ia.opposition_status then ["Have opposition"] else []) ++
  (if ia.opposition_status < 0 then ["Opp has opposition"] else []) ++
  (if ia.opposite_castling then ["Opposite castling"] else []) ++
  (if ia.pawn_storm then ["Pawn storm"] else [])

/-- The `add_vec` lambda of `explainMove`: append each phrase, preceded by
`" | "` whenever the accumulated rationale is nonempty. -/
def explainAddVec (acc : String) (v : List String) : String :=
  v.foldl (fun a s => if a.isEmpty then s else a ++ " | " ++ s) acc

/-- Translation of `explainMove`: each `push_back` chain becomes the concatenation of its
conditional singletons in source order; the rationale string folds sacrifice,
plan, move-reason and imbalance notes in that order. -/
def explainMove (b : Board) (move : Nat) (ia : ImbalanceAnalysis) : MoveExplanation :=
  let imbalance_notes := explainImbalanceNotes ia
  let sacrifice_notes : List String :=
    if ia.exchange_sacrifice then ["R for minor"] else []
  let move_reasons := explainMoveReasons ia
  let plan_notes := explainPlanNotes ia
  let pv := explainAddVec (explainAddVec (explainAddVec (explainAddVec "" sacrifice_notes)
    plan_notes) move_reasons) imbalance_notes
  { move_reasons := move_reasons
    imbalance_notes := imbalance_notes
    sacrifice_notes := sacrifice_notes
    plan_notes := plan_notes
    pv_explanation := if pv.isEmpty then "Developing move" else pv }

-- ============================================================================
-- Spec-worded reference predicates (for refinement comparisons only)
-- ============================================================================

/-- Modelled from the spec's wording of the passed-pawn rule, for comparison
with the source's `isPassedPawn`: no enemy pawn on the same or an adjacent
file at or ahead of the pawn's rank, and no enemy pawn able to capture on the
square the pawn advances to next. -/
def isPassedPawnSpec (b : Board) (color sq : Nat) : Bool :=
  let file : Int := ((sq % 8 : Nat) : Int)
  let rank := sq / 8
  let opp := getPieces b (1 - color) PAWNS
  let blockers := opp.filter fun s =>
    (((s % 8 : Nat) : Int) - file).natAbs ≤ 1 ∧
    ((color = WHITE ∧ rank ≤ s / 8) ∨ (color ≠ WHITE ∧ s / 8 ≤ rank))
  let nexti : Int := if color = WHITE then (rank : Int) + 1 else (rank : Int) - 1
  let capturers := opp.filter fun s =>
    (((s % 8 : Nat) : Int) - file).natAbs = 1 ∧
    ((color = WHITE ∧ ((s / 8 : Nat) : Int) = nexti + 1) ∨
     (color ≠ WHITE ∧ ((s / 8 : Nat) : Int) = nexti - 1))
  decide (blockers = ∅ ∧ capturers = ∅)

/-- Modelled from the spec's wording of the doubled-pawn rule, for comparison
with the source's `isDoubledPawn`: a friendly pawn exists further back on the
same file (toward that side's home rank). -/
def isDoubledPawnSpec (b : Board) (color sq : Nat) : Bool :=
  let file := sq % 8
  let rank := sq / 8
  let own := getPieces b color PAWNS
  (List.range 8).any fun r =>
    decide ((file + r * 8) ∈ own) &&
    (if color = WHITE then decide (r < rank) else decide (rank < r))

/-- The forcing-move count the claim describes, for comparison with the
source's `countForcingMoves`: identical except that the advanced-pawn term
really awards two per pawn standing on White's 7th board rank (rank index 6)
resp. Black's 2nd board rank (rank index 1). -/
def countForcingMovesSpec (b : Board) (color : Nat) : Int :=
  let knights := getPieces b color KNIGHTS
  let bishops := getPieces b color BISHOPS
  let rooks := getPieces b color ROOKS
  let queens := getPieces b color QUEENS
  let pawns := getPieces b color PAWNS
  let bq := bishops ∪ queens
  let bqCount : Int := bq.sum fun sq => if inCenterBox sq then 2 else 1
  let rq := rooks ∪ queens
  let rqCount : Int := rq.sum fun sq =>
    if hasBits (pawns ∩ fileMask (sq % 8)) then 1 else 2
  let advPawns : Finset Nat := pawns ∩ (if color = WHITE then rankMask 6 else rankMask 1)
  (knights.card : Int) + bqCount + rqCount + (advPawns.card : Int) * 2

-- ============================================================================
-- Color-mirroring (for the antisymmetry claim)
-- ============================================================================

/-- Vertical reflection of a square: the file is kept, rank r becomes 7 - r. -/
def mirrorSq (sq : Nat) : Nat := 8 * (7 - sq / 8) + sq % 8

/-- Color-mirroring of a position: every piece changes color and is reflected
vertically, the castling wing flags swap sides, and the side to move flips. -/
def Board.mirror (b : Board) : Board :=
  { pieces := fun c k => (b.pieces (1 - c) k).image mirrorSq
    kingSq := fun c => mirrorSq (b.kingSq (1 - c))
    castleWK := b.castleBK
    castleWQ := b.castleBQ
    castleBK := b.castleWK
    castleBQ := b.castleWQ
    playerToMove := 1 - b.playerToMove }

-- ============================================================================
-- Concrete positions used by the claims
-- ============================================================================

def mkBoard (wP wN wB wR wQ wK bP bN bB bR bQ bK : Finset Nat)
    (wkSq bkSq : Nat) (cwk cwq cbk cbq : Bool) (stm : Nat) : Board :=
  { pieces := fun c k =>
      if c = 0 then
        (if k = 1 then wP else if k = 2 then wN else if k = 3 then wB else
         if k = 4 then wR else if k = 5 then wQ else if k = 6 then wK else ∅)
      else if c = 1 then
        (if k = 1 then bP else if k = 2 then bN else if k = 3 then bB else
         if k = 4 then bR else if k = 5 then bQ else if k = 6 then bK else ∅)
      else ∅
    kingSq := fun c => if c = 0 then wkSq else bkSq
    castleWK := cwk
    castleWQ := cwq
    castleBK := cbk
    castleBQ := cbq
    playerToMove := stm }

/-- The standard chess starting position, White to move, full castling
rights. -/
def startBoard : Board :=
  mkBoard {8, 9, 10, 11, 12, 13, 14, 15} {1, 6} {2, 5} {0, 7} {3} {4}
          {48, 49, 50, 51, 52, 53, 54, 55} {57, 62} {58, 61} {56, 63} {59} {60}
          4 60 true true true true 0

/-- White pawn a6 (square 40), Black pawn a7 (square 48): the enemy pawn sits
directly ahead on the same file. -/
def passedBugBoard : Board :=
  mkBoard {40} ∅ ∅ ∅ ∅ {4} {48} ∅ ∅ ∅ ∅ {60} 4 60 false false false false 0

/-- White king e1, Black king e3, White to move; nothing else on the board. -/
def oppositionBoard : Board :=
  mkBoard ∅ ∅ ∅ ∅ ∅ {4} ∅ ∅ ∅ ∅ ∅ {20} 4 20 false false false false 0

/-- Bare kings plus three Black queens: material differential -2700, so its
absolute value is far above the 2500 threshold. -/
def bigBlackBoard : Board :=
  mkBoard ∅ ∅ ∅ ∅ ∅ {4} ∅ ∅ ∅ ∅ {56, 59, 63} {60} 4 60 false false false false 0

/-- Bare kings plus three White queens: material differential +2700. -/
def bigWhiteBoard : Board :=
  mkBoard ∅ ∅ ∅ ∅ {0, 3, 7} {4} ∅ ∅ ∅ ∅ ∅ {60} 4 60 false false false false 0

/-- Black pawns a7 (48) and a6 (40): the a6 pawn has a friendly pawn further
back (toward Black's home rank) on the same file. -/
def doubledBoard : Board :=
  mkBoard ∅ ∅ ∅ ∅ ∅ {4} {40, 48} ∅ ∅ ∅ ∅ {60} 4 60 false false false false 0

/-- Bare kings only. -/
def kingsOnlyBoard : Board :=
  mkBoard ∅ ∅ ∅ ∅ ∅ {4} ∅ ∅ ∅ ∅ ∅ {60} 4 60 true true true true 0

/-- Bare kings plus a White pawn on a7 (square 48, White's 7th rank). -/
def advPawnBoard : Board :=
  mkBoard {48} ∅ ∅ ∅ ∅ {4} ∅ ∅ ∅ ∅ ∅ {60} 4 60 true true true true 0

/-- Bare kings plus a White knight on b1: a non-pawn piece on White's own
back rank. -/
def knightB1Board : Board :=
  mkBoard ∅ {1} ∅ ∅ ∅ {4} ∅ ∅ ∅ ∅ ∅ {60} 4 60 false false false false 0

/-- A developed position: White pawn e4 and knight c3, Black pawn e5 and
knight f6, White to move. -/
def devBoard : Board :=
  mkBoard {28} {18} ∅ ∅ ∅ {4} {36} {45} ∅ ∅ ∅ {60} 4 60 false false false false 0

-- ============================================================================
-- Helper lemmas about the style-discount pass
-- ============================================================================

theorem calcDiscounts_material (ia : ImbalanceAnalysis) (style : PlayingStyle) :
    (calculatePositionalDiscounts ia style).material = ia.material := by
  cases style <;> simp only [calculatePositionalDiscounts] <;> split_ifs <;> rfl

theorem calcDiscounts_pawn_structure (ia : ImbalanceAnalysis) (style : PlayingStyle) :
    (calculatePositionalDiscounts ia style).pawn_structure = ia.pawn_structure := by
  cases style <;> simp only [calculatePositionalDiscounts] <;> split_ifs <;> rfl

theorem calcDiscounts_is_endgame (ia : ImbalanceAnalysis) (style : PlayingStyle) :
    (calculatePositionalDiscounts ia style).is_endgame = ia.is_endgame := by
  cases style <;> simp only [calculatePositionalDiscounts] <;> split_ifs <;> rfl

theorem calcDiscounts_king_activity_white (ia : ImbalanceAnalysis) (style : PlayingStyle) :
    (calculatePositionalDiscounts ia style).king_activity_white = ia.king_activity_white := by
  cases style <;> simp only [calculatePositionalDiscounts] <;> split_ifs <;> rfl

theorem calcDiscounts_king_activity_black (ia : ImbalanceAnalysis) (style : PlayingStyle) :
    (calculatePositionalDiscounts ia style).king_activity_black = ia.king_activity_black := by
  cases style <;> simp only [calculatePositionalDiscounts] <;> split_ifs <;> rfl

theorem calcDiscounts_opposition_status (ia : ImbalanceAnalysis) (style : PlayingStyle) :
    (calculatePositionalDiscounts ia style).opposition_status = ia.opposition_status := by
  cases style <;> simp only [calculatePositionalDiscounts] <;> split_ifs <;> rfl

theorem calcDiscounts_opposite_castling (ia : ImbalanceAnalysis) (style : PlayingStyle) :
    (calculatePositionalDiscounts ia style).opposite_castling = ia.opposite_castling := by
  cases style <;> simp only [calculatePositionalDiscounts] <;> split_ifs <;> rfl

theorem calcDiscounts_pawn_storm (ia : ImbalanceAnalysis) (style : PlayingStyle) :
    (calculatePositionalDiscounts ia style).pawn_storm = ia.pawn_storm := by
  cases style <;> simp only [calculatePositionalDiscounts] <;> split_ifs <;> rfl

theorem calcDiscounts_pawn_storm_strength (ia : ImbalanceAnalysis) (style : PlayingStyle) :
    (calculatePositionalDiscounts ia style).pawn_storm_strength = ia.pawn_storm_strength := by
  cases style <;> simp only [calculatePositionalDiscounts] <;> split_ifs <;> rfl

theorem calcDiscounts_white_king_exposed (ia : ImbalanceAnalysis) (style : PlayingStyle) :
    (calculatePositionalDiscounts ia style).white_king_exposed = ia.white_king_exposed := by
  cases style <;> simp only [calculatePositionalDiscounts] <;> split_ifs <;> rfl

theorem calcDiscounts_black_king_exposed (ia : ImbalanceAnalysis) (style : PlayingStyle) :
    (calculatePositionalDiscounts ia style).black_king_exposed = ia.black_king_exposed := by
  cases style <;> simp only [calculatePositionalDiscounts] <;> split_ifs <;> rfl

theorem calcDiscounts_king_safety_discount (ia : ImbalanceAnalysis) (style : PlayingStyle) :
    (calculatePositionalDiscounts ia style).king_safety_discount =
      if ia.white_king_exposed then -50
      else if ia.black_king_exposed then 50
      else ia.king_safety_discount := by
  cases style <;> simp only [calculatePositionalDiscounts] <;> split_ifs <;> simp_all

-- ============================================================================
-- Mirror lemmas
-- ============================================================================

theorem mirrorSq_lt : ∀ sq < 64, mirrorSq sq < 64 := by decide

theorem mirrorSq_invol : ∀ sq < 64, mirrorSq (mirrorSq sq) = sq := by decide

theorem mirrorSq_mod : ∀ sq < 64, mirrorSq sq % 8 = sq % 8 := by decide

theorem inCenterBox_mirror : ∀ sq < 64, inCenterBox (mirrorSq sq) = inCenterBox sq := by decide

theorem mem_fileMask_iff : ∀ f < 8, ∀ y < 64, (y ∈ fileMask f ↔ y % 8 = f) := by decide

theorem fileMask_lt : ∀ f < 8, ∀ y ∈ fileMask f, y < 64 := by decide

theorem rankMask6_lt56 : ∀ y ∈ rankMask 6, y < 56 := by decide

theorem rankMask0_le7 : ∀ y ∈ rankMask 0, y ≤ 7 := by decide

theorem mem_rank0_mirror : ∀ y < 64, (mirrorSq y ∈ rankMask 0 ↔ y ∈ rankMask 7) := by decide

theorem mem_rank70_mirror :
    ∀ y < 64, (mirrorSq y ∈ rankMask 7 ∪ rankMask 0 ↔ y ∈ rankMask 0 ∪ rankMask 7) := by decide

theorem mem_center_mirror :
    ∀ y < 64, (mirrorSq y ∈ centerSquares ↔ y ∈ mirrorCenterPre) := by decide

theorem mirrorCenterPre_split :
    ∀ x ∈ mirrorCenterPre, x ∈ centerSquares ∨ x ∈ asymCenterSquares := by decide

theorem centerSquares_split :
    ∀ x ∈ centerSquares, x ∈ mirrorCenterPre ∨ x ∈ asymCenterSquares := by decide

theorem mirrorSq_injOn (X : Finset Nat) (hX : ∀ x ∈ X, x < 64) :
    ∀ x ∈ X, ∀ y ∈ X, mirrorSq x = mirrorSq y → x = y := by
  intro x hx y hy h
  have hx2 := mirrorSq_invol x (hX x hx)
  have hy2 := mirrorSq_invol y (hX y hy)
  rw [← hx2, ← hy2, h]

theorem card_image_mirror (X : Finset Nat) (hX : ∀ x ∈ X, x < 64) :
    (X.image mirrorSq).card = X.card := by
  apply Finset.card_image_of_injOn
  intro x hx y hy h
  exact mirrorSq_injOn X hX x (by simpa using hx) y (by simpa using hy) h

theorem sum_image_mirror (X : Finset Nat) (hX : ∀ x ∈ X, x < 64) (g : Nat → Int) :
    (X.image mirrorSq).sum g = X.sum (fun x => g (mirrorSq x)) :=
  Finset.sum_image (fun x hx y hy h => mirrorSq_injOn X hX x hx y hy h)

theorem mem_image_mirror (X : Finset Nat) (hX : ∀ x ∈ X, x < 64) (y : Nat) (hy : y < 64) :
    (y ∈ X.image mirrorSq) ↔ mirrorSq y ∈ X := by
  constructor
  · intro h
    obtain ⟨x, hxX, hxy⟩ := Finset.mem_image.mp h
    rw [← hxy, mirrorSq_invol x (hX x hxX)]
    exact hxX
  · intro h
    exact Finset.mem_image.mpr ⟨mirrorSq y, h, mirrorSq_invol y hy⟩

theorem union_lt {X Y : Finset Nat} (hX : ∀ x ∈ X, x < 64) (hY : ∀ x ∈ Y, x < 64) :
    ∀ x ∈ X ∪ Y, x < 64 := by
  intro x hx
  rcases Finset.mem_union.mp hx with h | h
  · exact hX x h
  · exact hY x h

theorem image_mirror_inter_t (X t t2 : Finset Nat) (hX : ∀ x ∈ X, x < 64)
    (ht : ∀ x, x < 64 → (mirrorSq x ∈ t ↔ x ∈ t2)) :
    X.image mirrorSq ∩ t = (X ∩ t2).image mirrorSq := by
  ext y
  simp only [Finset.mem_inter, Finset.mem_image]
  constructor
  · rintro ⟨⟨x, hxX, rfl⟩, hr⟩
    exact ⟨x, ⟨hxX, (ht x (hX x hxX)).mp hr⟩, rfl⟩
  · rintro ⟨x, ⟨hxX, hr⟩, rfl⟩
    exact ⟨⟨x, hxX, rfl⟩, (ht x (hX x hxX)).mpr hr⟩

theorem image_mirror_sdiff_t (X t t2 : Finset Nat) (hX : ∀ x ∈ X, x < 64)
    (ht : ∀ x, x < 64 → (mirrorSq x ∈ t ↔ x ∈ t2)) :
    X.image mirrorSq \ t = (X \ t2).image mirrorSq := by
  ext y
  simp only [Finset.mem_sdiff, Finset.mem_image]
  constructor
  · rintro ⟨⟨x, hxX, rfl⟩, hr⟩
    exact ⟨x, ⟨hxX, fun hc => hr ((ht x (hX x hxX)).mpr hc)⟩, rfl⟩
  · rintro ⟨x, ⟨hxX, hr⟩, rfl⟩
    exact ⟨⟨x, hxX, rfl⟩, fun hc => hr ((ht x (hX x hxX)).mp hc)⟩

theorem sdiff_union_eq_of_inter_empty (X t1 t2 : Finset Nat) (h : X ∩ t2 = ∅) :
    X \ (t1 ∪ t2) = X \ t1 := by
  ext x
  simp only [Finset.mem_sdiff, Finset.mem_union]
  constructor
  · rintro ⟨hx, hn⟩
    exact ⟨hx, fun hc => hn (Or.inl hc)⟩
  · rintro ⟨hx, hn⟩
    refine ⟨hx, fun hc => ?_⟩
    rcases hc with hc | hc
    · exact hn hc
    · exact Finset.eq_empty_iff_forall_not_mem.mp h x (Finset.mem_inter.mpr ⟨hx, hc⟩)

theorem inter_eq_of_avoid (S t1 t2 a : Finset Nat) (hS : S ∩ a = ∅)
    (h12 : ∀ x ∈ t1, x ∈ t2 ∨ x ∈ a) (h21 : ∀ x ∈ t2, x ∈ t1 ∨ x ∈ a) :
    S ∩ t1 = S ∩ t2 := by
  ext x
  simp only [Finset.mem_inter]
  constructor
  · rintro ⟨hxS, hx1⟩
    refine ⟨hxS, ?_⟩
    rcases h12 x hx1 with h | h
    · exact h
    · exact absurd (Finset.mem_inter.mpr ⟨hxS, h⟩)
        (by simp [Finset.eq_empty_iff_forall_not_mem.mp hS x])
  · rintro ⟨hxS, hx2⟩
    refine ⟨hxS, ?_⟩
    rcases h21 x hx2 with h | h
    · exact h
    · exact absurd (Finset.mem_inter.mpr ⟨hxS, h⟩)
        (by simp [Finset.eq_empty_iff_forall_not_mem.mp hS x])

theorem hasBits_file_image_mirror (X : Finset Nat) (hX : ∀ x ∈ X, x < 64)
    (f : Nat) (hf : f < 8) :
    hasBits (X.image mirrorSq ∩ fileMask f) = hasBits (X ∩ fileMask f) := by
  simp only [hasBits, decide_eq_decide]
  rw [← Finset.nonempty_iff_ne_empty, ← Finset.nonempty_iff_ne_empty]
  constructor
  · rintro ⟨y, hy⟩
    obtain ⟨hyi, hyf⟩ := Finset.mem_inter.mp hy
    have hy64 : y < 64 := fileMask_lt f hf y hyf
    refine ⟨mirrorSq y, Finset.mem_inter.mpr ⟨(mem_image_mirror X hX y hy64).mp hyi, ?_⟩⟩
    rw [mem_fileMask_iff f hf (mirrorSq y) (mirrorSq_lt y hy64), mirrorSq_mod y hy64]
    exact (mem_fileMask_iff f hf y hy64).mp hyf
  · rintro ⟨x, hx⟩
    obtain ⟨hxX, hxf⟩ := Finset.mem_inter.mp hx
    have hx64 : x < 64 := hX x hxX
    refine ⟨mirrorSq x, Finset.mem_inter.mpr ⟨Finset.mem_image_of_mem _ hxX, ?_⟩⟩
    rw [mem_fileMask_iff f hf (mirrorSq x) (mirrorSq_lt x hx64), mirrorSq_mod x hx64]
    exact (mem_fileMask_iff f hf x hx64).mp hxf

theorem bbShr_rank6_empty (X : Finset Nat) : bbShr (X ∩ rankMask 6) 56 = ∅ := by
  unfold bbShr
  have h : (X ∩ rankMask 6).filter (fun x => 56 ≤ x) = ∅ := by
    rw [Finset.filter_eq_empty_iff]
    intro x hx
    have := rankMask6_lt56 x (Finset.mem_inter.mp hx).2
    omega
  rw [h, Finset.image_empty]

theorem bbShl_rank0_card (X : Finset Nat) :
    (bbShl (X ∩ rankMask 0) 56).card = (X ∩ rankMask 0).card := by
  unfold bbShl
  have h : ((X ∩ rankMask 0).image (fun x => x + 56)).filter (fun x => x < 64) =
      (X ∩ rankMask 0).image (fun x => x + 56) := by
    rw [Finset.filter_eq_self]
    intro y hy
    obtain ⟨x, hx, rfl⟩ := Finset.mem_image.mp hy
    have := rankMask0_le7 x (Finset.mem_inter.mp hx).2
    omega
  rw [h]
  exact Finset.card_image_of_injective _ (add_left_injective 56)

theorem mirror_pieces_b (b : Board) (k : Nat) :
    getPieces b.mirror BLACK k = (getPieces b WHITE k).image mirrorSq := rfl

theorem mirror_pieces_w (b : Board) (k : Nat) :
    getPieces b.mirror WHITE k = (getPieces b BLACK k).image mirrorSq := rfl



theorem countForcingMoves_mirror_white (b : Board) (hwf : b.wf)
    (hwp : getPieces b WHITE PAWNS ∩ rankMask 7 = ∅) :
    countForcingMoves b.mirror BLACK = countForcingMoves b WHITE := by
  have hP : ∀ x ∈ getPieces b WHITE PAWNS, x < 64 := hwf 0 (by omega) 1 (by omega)
  have hN : ∀ x ∈ getPieces b WHITE KNIGHTS, x < 64 := hwf 0 (by omega) 2 (by omega)
  have hB : ∀ x ∈ getPieces b WHITE BISHOPS, x < 64 := hwf 0 (by omega) 3 (by omega)
  have hR : ∀ x ∈ getPieces b WHITE ROOKS, x < 64 := hwf 0 (by omega) 4 (by omega)
  have hQ : ∀ x ∈ getPieces b WHITE QUEENS, x < 64 := hwf 0 (by omega) 5 (by omega)
  simp only [countForcingMoves, mirror_pieces_b]
  rw [if_neg (by decide : ¬(BLACK = WHITE))]
  simp only [if_true]
  rw [← Finset.image_union, ← Finset.image_union]
  rw [card_image_mirror _ hN]
  rw [sum_image_mirror _ (union_lt hB hQ)]
  rw [sum_image_mirror _ (union_lt hR hQ)]
  rw [image_mirror_inter_t _ _ _ hP mem_rank0_mirror, hwp]
  rw [bbShr_rank6_empty]
  simp only [Finset.image_empty, bbShl, Finset.filter_empty, Finset.card_empty]
  have e2 : ∀ x ∈ getPieces b WHITE BISHOPS ∪ getPieces b WHITE QUEENS,
      (if inCenterBox (mirrorSq x) then (2 : Int) else 1) =
      (if inCenterBox x then (2 : Int) else 1) := by
    intro x hx
    rw [inCenterBox_mirror x (union_lt hB hQ x hx)]
  have e3 : ∀ x ∈ getPieces b WHITE ROOKS ∪ getPieces b WHITE QUEENS,
      (if hasBits ((getPieces b WHITE PAWNS).image mirrorSq ∩ fileMask (mirrorSq x % 8))
         then (1 : Int) else 2) =
      (if hasBits (getPieces b WHITE PAWNS ∩ fileMask (x % 8)) then (1 : Int) else 2) := by
    intro x hx
    have hx64 := union_lt hR hQ x hx
    rw [mirrorSq_mod x hx64,
      hasBits_file_image_mirror _ hP (x % 8) (Nat.mod_lt _ (by omega))]
  rw [Finset.sum_congr rfl e2, Finset.sum_congr rfl e3]


theorem countForcingMoves_mirror_black (b : Board) (hwf : b.wf)
    (hbp : getPieces b BLACK PAWNS ∩ rankMask 0 = ∅) :
    countForcingMoves b.mirror WHITE = countForcingMoves b BLACK := by
  have hP : ∀ x ∈ getPieces b BLACK PAWNS, x < 64 := hwf 1 (by omega) 1 (by omega)
  have hN : ∀ x ∈ getPieces b BLACK KNIGHTS, x < 64 := hwf 1 (by omega) 2 (by omega)
  have hB : ∀ x ∈ getPieces b BLACK BISHOPS, x < 64 := hwf 1 (by omega) 3 (by omega)
  have hR : ∀ x ∈ getPieces b BLACK ROOKS, x < 64 := hwf 1 (by omega) 4 (by omega)
  have hQ : ∀ x ∈ getPieces b BLACK QUEENS, x < 64 := hwf 1 (by omega) 5 (by omega)
  simp only [countForcingMoves, mirror_pieces_w]
  rw [if_neg (by decide : ¬(BLACK = WHITE))]
  simp only [if_true]
  rw [← Finset.image_union, ← Finset.image_union]
  rw [card_image_mirror _ hN]
  rw [sum_image_mirror _ (union_lt hB hQ)]
  rw [sum_image_mirror _ (union_lt hR hQ)]
  rw [bbShr_rank6_empty, hbp]
  simp only [Finset.image_empty, bbShl, Finset.filter_empty, Finset.card_empty]
  have e2 : ∀ x ∈ getPieces b BLACK BISHOPS ∪ getPieces b BLACK QUEENS,
      (if inCenterBox (mirrorSq x) then (2 : Int) else 1) =
      (if inCenterBox x then (2 : Int) else 1) := by
    intro x hx
    rw [inCenterBox_mirror x (union_lt hB hQ x hx)]
  have e3 : ∀ x ∈ getPieces b BLACK ROOKS ∪ getPieces b BLACK QUEENS,
      (if hasBits ((getPieces b BLACK PAWNS).image mirrorSq ∩ fileMask (mirrorSq x % 8))
         then (1 : Int) else 2) =
      (if hasBits (getPieces b BLACK PAWNS ∩ fileMask (x % 8)) then (1 : Int) else 2) := by
    intro x hx
    have hx64 := union_lt hR hQ x hx
    rw [mirrorSq_mod x hx64,
      hasBits_file_image_mirror _ hP (x % 8) (Nat.mod_lt _ (by omega))]
  rw [Finset.sum_congr rfl e2, Finset.sum_congr rfl e3]

theorem mirror_stm (b : Board) : b.mirror.playerToMove = 1 - b.playerToMove := rfl

theorem assessPawnBreakTiming_mirror (b : Board) (hwf : b.wf) (c c2 : Nat) :
    assessPawnBreakTiming b.mirror c = -assessPawnBreakTiming b c2 := by
  have hPw : ∀ x ∈ getPieces b WHITE PAWNS, x < 64 := hwf 0 (by omega) 1 (by omega)
  have hPb : ∀ x ∈ getPieces b BLACK PAWNS, x < 64 := hwf 1 (by omega) 1 (by omega)
  have h12 : decide (12 ∈ getPieces b.mirror WHITE PAWNS) =
      decide (52 ∈ getPieces b BLACK PAWNS) := by
    rw [decide_eq_decide, mirror_pieces_w]
    exact mem_image_mirror _ hPb 12 (by omega)
  have h11 : decide (11 ∈ getPieces b.mirror WHITE PAWNS) =
      decide (51 ∈ getPieces b BLACK PAWNS) := by
    rw [decide_eq_decide, mirror_pieces_w]
    exact mem_image_mirror _ hPb 11 (by omega)
  have h52 : decide (52 ∈ getPieces b.mirror BLACK PAWNS) =
      decide (12 ∈ getPieces b WHITE PAWNS) := by
    rw [decide_eq_decide, mirror_pieces_b]
    exact mem_image_mirror _ hPw 52 (by omega)
  have h51 : decide (51 ∈ getPieces b.mirror BLACK PAWNS) =
      decide (11 ∈ getPieces b WHITE PAWNS) := by
    rw [decide_eq_decide, mirror_pieces_b]
    exact mem_image_mirror _ hPw 51 (by omega)
  simp only [assessPawnBreakTiming, h12, h11, h52, h51]
  cases hb1 : decide (12 ∈ getPieces b WHITE PAWNS) <;>
  cases hb2 : decide (11 ∈ getPieces b WHITE PAWNS) <;>
  cases hb3 : decide (52 ∈ getPieces b BLACK PAWNS) <;>
  cases hb4 : decide (51 ∈ getPieces b BLACK PAWNS) <;> decide


theorem evaluateInitiative_mirror_white (b : Board) (hwf : b.wf)
    (hstm : b.playerToMove < 2)
    (hwp : getPieces b WHITE PAWNS ∩ rankMask 7 = ∅)
    (hbp : getPieces b BLACK PAWNS ∩ rankMask 0 = ∅)
    (hwback : (getPieces b WHITE KNIGHTS ∪ getPieces b WHITE BISHOPS ∪
      getPieces b WHITE ROOKS ∪ getPieces b WHITE QUEENS) ∩ rankMask 0 = ∅)
    (hwc : (getPieces b WHITE PAWNS ∪ (getPieces b WHITE KNIGHTS ∪
      getPieces b WHITE BISHOPS)) ∩ asymCenterSquares = ∅) :
    evaluateInitiative b.mirror BLACK = evaluateInitiative b WHITE := by
  have hPw : ∀ x ∈ getPieces b WHITE PAWNS, x < 64 := hwf 0 (by omega) 1 (by omega)
  have hNw : ∀ x ∈ getPieces b WHITE KNIGHTS, x < 64 := hwf 0 (by omega) 2 (by omega)
  have hBw : ∀ x ∈ getPieces b WHITE BISHOPS, x < 64 := hwf 0 (by omega) 3 (by omega)
  have hRw : ∀ x ∈ getPieces b WHITE ROOKS, x < 64 := hwf 0 (by omega) 4 (by omega)
  have hQw : ∀ x ∈ getPieces b WHITE QUEENS, x < 64 := hwf 0 (by omega) 5 (by omega)
  have hcfW : countForcingMoves b.mirror BLACK = countForcingMoves b WHITE :=
    countForcingMoves_mirror_white b hwf hwp
  have hcfB : countForcingMoves b.mirror WHITE = countForcingMoves b BLACK :=
    countForcingMoves_mirror_black b hwf hbp
  have hbrk : assessPawnBreakTiming b.mirror BLACK = -assessPawnBreakTiming b WHITE :=
    assessPawnBreakTiming_mirror b hwf BLACK WHITE
  simp only [evaluateInitiative, mirror_pieces_b, mirror_stm,
    show (1 : Nat) - BLACK = WHITE from rfl, show (1 : Nat) - WHITE = BLACK from rfl,
    hcfW, hcfB, hbrk]
  have hbw : (BLACK = WHITE) = False := eq_false (by decide)
  have hc : (1 - b.playerToMove = BLACK) = (b.playerToMove = WHITE) := by
    apply propext
    show 1 - b.playerToMove = 1 ↔ b.playerToMove = 0
    omega
  simp only [hc, hbw, if_false, if_true, neg_neg]
  simp only [← Finset.image_union]
  have hU4 : ∀ x ∈ getPieces b WHITE KNIGHTS ∪ getPieces b WHITE BISHOPS ∪
      getPieces b WHITE ROOKS ∪ getPieces b WHITE QUEENS, x < 64 :=
    union_lt (union_lt (union_lt hNw hBw) hRw) hQw
  rw [image_mirror_sdiff_t _ _ _ hU4 mem_rank0_mirror,
    card_image_mirror _ (fun x hx => hU4 x (Finset.mem_sdiff.mp hx).1),
    sdiff_union_eq_of_inter_empty _ _ _ hwback]
  have e3 : ∀ x ∈ Finset.range 8,
      (if hasBits ((getPieces b WHITE PAWNS).image mirrorSq ∩ fileMask x) = true
        then (0 : Int) else 3) =
      (if hasBits (getPieces b WHITE PAWNS ∩ fileMask x) = true then (0 : Int) else 3) := by
    intro x hx
    rw [hasBits_file_image_mirror _ hPw x (Finset.mem_range.mp hx)]
  rw [Finset.sum_congr rfl e3]
  have hPNB : ∀ x ∈ getPieces b WHITE PAWNS ∪
      (getPieces b WHITE KNIGHTS ∪ getPieces b WHITE BISHOPS), x < 64 :=
    union_lt hPw (union_lt hNw hBw)
  rw [Finset.inter_comm centerSquares ((getPieces b WHITE PAWNS ∪
      (getPieces b WHITE KNIGHTS ∪ getPieces b WHITE BISHOPS)).image mirrorSq),
    image_mirror_inter_t _ _ _ hPNB mem_center_mirror,
    card_image_mirror _ (fun x hx => hPNB x (Finset.mem_inter.mp hx).1),
    inter_eq_of_avoid _ _ _ _ hwc mirrorCenterPre_split centerSquares_split,
    Finset.inter_comm centerSquares (getPieces b WHITE PAWNS ∪
      (getPieces b WHITE KNIGHTS ∪ getPieces b WHITE BISHOPS))]


theorem evaluateInitiative_mirror_black (b : Board) (hwf : b.wf)
    (hstm : b.playerToMove < 2)
    (hwp : getPieces b WHITE PAWNS ∩ rankMask 7 = ∅)
    (hbp : getPieces b BLACK PAWNS ∩ rankMask 0 = ∅)
    (hbback : (getPieces b BLACK KNIGHTS ∪ getPieces b BLACK BISHOPS ∪
      getPieces b BLACK ROOKS ∪ getPieces b BLACK QUEENS) ∩ rankMask 7 = ∅)
    (hbc : (getPieces b BLACK PAWNS ∪ (getPieces b BLACK KNIGHTS ∪
      getPieces b BLACK BISHOPS)) ∩ asymCenterSquares = ∅) :
    evaluateInitiative b.mirror WHITE = evaluateInitiative b BLACK := by
  have hPb : ∀ x ∈ getPieces b BLACK PAWNS, x < 64 := hwf 1 (by omega) 1 (by omega)
  have hNb : ∀ x ∈ getPieces b BLACK KNIGHTS, x < 64 := hwf 1 (by omega) 2 (by omega)
  have hBb : ∀ x ∈ getPieces b BLACK BISHOPS, x < 64 := hwf 1 (by omega) 3 (by omega)
  have hRb : ∀ x ∈ getPieces b BLACK ROOKS, x < 64 := hwf 1 (by omega) 4 (by omega)
  have hQb : ∀ x ∈ getPieces b BLACK QUEENS, x < 64 := hwf 1 (by omega) 5 (by omega)
  have hcfW : countForcingMoves b.mirror BLACK = countForcingMoves b WHITE :=
    countForcingMoves_mirror_white b hwf hwp
  have hcfB : countForcingMoves b.mirror WHITE = countForcingMoves b BLACK :=
    countForcingMoves_mirror_black b hwf hbp
  have hbrk : assessPawnBreakTiming b.mirror WHITE = -assessPawnBreakTiming b BLACK :=
    assessPawnBreakTiming_mirror b hwf WHITE BLACK
  simp only [evaluateInitiative, mirror_pieces_w, mirror_stm,
    show (1 : Nat) - BLACK = WHITE from rfl, show (1 : Nat) - WHITE = BLACK from rfl,
    hcfW, hcfB, hbrk]
  have hbw : (BLACK = WHITE) = False := eq_false (by decide)
  have hc : (1 - b.playerToMove = WHITE) = (b.playerToMove = BLACK) := by
    apply propext
    show 1 - b.playerToMove = 0 ↔ b.playerToMove = 1
    omega
  simp only [hc, hbw, if_false, if_true]
  simp only [← Finset.image_union]
  have hU4 : ∀ x ∈ getPieces b BLACK KNIGHTS ∪ getPieces b BLACK BISHOPS ∪
      getPieces b BLACK ROOKS ∪ getPieces b BLACK QUEENS, x < 64 :=
    union_lt (union_lt (union_lt hNb hBb) hRb) hQb
  rw [image_mirror_sdiff_t _ _ _ hU4 mem_rank70_mirror,
    card_image_mirror _ (fun x hx => hU4 x (Finset.mem_sdiff.mp hx).1),
    sdiff_union_eq_of_inter_empty _ _ _ hbback]
  have e3 : ∀ x ∈ Finset.range 8,
      (if hasBits ((getPieces b BLACK PAWNS).image mirrorSq ∩ fileMask x) = true
        then (0 : Int) else 3) =
      (if hasBits (getPieces b BLACK PAWNS ∩ fileMask x) = true then (0 : Int) else 3) := by
    intro x hx
    rw [hasBits_file_image_mirror _ hPb x (Finset.mem_range.mp hx)]
  rw [Finset.sum_congr rfl e3]
  have hPNB : ∀ x ∈ getPieces b BLACK PAWNS ∪
      (getPieces b BLACK KNIGHTS ∪ getPieces b BLACK BISHOPS), x < 64 :=
    union_lt hPb (union_lt hNb hBb)
  rw [Finset.inter_comm centerSquares ((getPieces b BLACK PAWNS ∪
      (getPieces b BLACK KNIGHTS ∪ getPieces b BLACK BISHOPS)).image mirrorSq),
    image_mirror_inter_t _ _ _ hPNB mem_center_mirror,
    card_image_mirror _ (fun x hx => hPNB x (Finset.mem_inter.mp hx).1),
    inter_eq_of_avoid _ _ _ _ hbc mirrorCenterPre_split centerSquares_split,
    Finset.inter_comm centerSquares (getPieces b BLACK PAWNS ∪
      (getPieces b BLACK KNIGHTS ∪ getPieces b BLACK BISHOPS))]

-- ============================================================================
-- Claim theorems
-- ============================================================================

/-- C1 (counterexample): on the standard starting position with White to move
and full castling rights, the record the claim describes — material 0,
pawn_structure 0, activity 0, initiative +10, is_endgame false, no plan flags
and rationale "Developing move" — is not what `analyzeImbalances` and
`explainMove` return. -/
theorem C1_counterexample :
    ¬((analyzeImbalances PlayingStyle.CLASSICAL startBoard).material = 0 ∧
      (analyzeImbalances PlayingStyle.CLASSICAL startBoard).pawn_structure = 0 ∧
      (analyzeImbalances PlayingStyle.CLASSICAL startBoard).activity = 0 ∧
      (analyzeImbalances PlayingStyle.CLASSICAL startBoard).initiative = 10 ∧
      (analyzeImbalances PlayingStyle.CLASSICAL startBoard).is_endgame = false ∧
      (analyzeImbalances PlayingStyle.CLASSICAL startBoard).minority_attack = false ∧
      (analyzeImbalances PlayingStyle.CLASSICAL startBoard).open_file = false ∧
      (analyzeImbalances PlayingStyle.CLASSICAL startBoard).rook_on_7th = false ∧
      (analyzeImbalances PlayingStyle.CLASSICAL startBoard).opposite_castling = false ∧
      (analyzeImbalances PlayingStyle.CLASSICAL startBoard).pawn_storm = false ∧
      (explainMove startBoard 0
        (analyzeImbalances PlayingStyle.CLASSICAL startBoard)).pv_explanation =
        "Developing move") := by decide

/-- C1 (amended): on the standard starting position with White to move and
full castling rights, `analyzeImbalances` (CLASSICAL style) returns
material = 0, pawn_structure = 10 (the endgame block fires at material 0 and
folds in one fifth of the 60 − 10 endgame delta), activity = 16,
initiative = −1, is_endgame = true, no plan flags set, and both passed-pawn
counts equal 1 (the b2/g7 pawns satisfy the source's transposed passed scan),
so `explainMove` yields the rationale
"Have opposition | Passed pawn | Opp passed pawn | Active king". -/
theorem C1_start_position_values :
    (analyzeImbalances PlayingStyle.CLASSICAL startBoard).material = 0 ∧
    (analyzeImbalances PlayingStyle.CLASSICAL startBoard).pawn_structure = 10 ∧
    (analyzeImbalances PlayingStyle.CLASSICAL startBoard).activity = 16 ∧
    (analyzeImbalances PlayingStyle.CLASSICAL startBoard).initiative = -1 ∧
    (analyzeImbalances PlayingStyle.CLASSICAL startBoard).is_endgame = true ∧
    (analyzeImbalances PlayingStyle.CLASSICAL startBoard).minority_attack = false ∧
    (analyzeImbalances PlayingStyle.CLASSICAL startBoard).open_file = false ∧
    (analyzeImbalances PlayingStyle.CLASSICAL startBoard).rook_on_7th = false ∧
    (analyzeImbalances PlayingStyle.CLASSICAL startBoard).opposite_castling = false ∧
    (analyzeImbalances PlayingStyle.CLASSICAL startBoard).pawn_storm = false ∧
    (analyzeImbalances PlayingStyle.CLASSICAL startBoard).white_pawns.passed_count = 1 ∧
    (analyzeImbalances PlayingStyle.CLASSICAL startBoard).king_activity_white = 60 ∧
    (analyzeImbalances PlayingStyle.CLASSICAL startBoard).king_activity_black = 10 ∧
    (analyzeImbalances PlayingStyle.CLASSICAL startBoard).opposition_status = 30 ∧
    (explainMove startBoard 0
      (analyzeImbalances PlayingStyle.CLASSICAL startBoard)).pv_explanation =
      "Have opposition | Passed pawn | Opp passed pawn | Active king" := by decide

/-- C2 (code bug): `isPassedPawn` scans the wrong bitboard (`own` instead of
`opp`) at transposed indices, so with a White pawn on a6 (square 40) and a
Black pawn directly ahead of it on a7 (square 48) it still answers true,
while the spec's passed-pawn rule answers false. -/
theorem C2_passed_pawn_bug :
    48 ∈ getPieces passedBugBoard BLACK PAWNS ∧
    isPassedPawn passedBugBoard WHITE 40 = true ∧
    isPassedPawnSpec passedBugBoard WHITE 40 = false := by decide

/-- C3 (counterexample): with the White king on e1, the Black king on e3 and
White to move, `evaluateOpposition` does not return −30 for White and +30 for
Black as the claim states. -/
theorem C3_counterexample :
    ¬(evaluateOpposition oppositionBoard WHITE = -30 ∧
      evaluateOpposition oppositionBoard BLACK = 30) := by decide

/-- C3 (amended): with the White king on e1, the Black king on e3 and White
to move, the kings are two ranks apart on the same file, which the code (and
the spec's own classification rules) calls DISTANT opposition, scored +15 for
the White query and −15 for the Black query independent of the side to
move. -/
theorem C3_opposition_e1_e3_values :
    getOppositionType oppositionBoard = OppositionType.DISTANT ∧
    evaluateOpposition oppositionBoard WHITE = 15 ∧
    evaluateOpposition oppositionBoard BLACK = -15 := by decide

/-- C5 (code bug): for a Black pawn, `isDoubledPawn`'s loop
`for (r = rank + 1; r < rank; r++)` never runs, so the Black pawn on a6
(square 40) with a friendly pawn further back on a7 (square 48) is not
reported doubled, though the spec's doubled-pawn rule reports it. -/
theorem C5_doubled_pawn_black_bug :
    40 ∈ getPieces doubledBoard BLACK PAWNS ∧
    48 ∈ getPieces doubledBoard BLACK PAWNS ∧
    isDoubledPawn doubledBoard BLACK 40 = false ∧
    isDoubledPawnSpec doubledBoard BLACK 40 = true := by decide

/-- C6 (code bug): the advanced-pawn term of `countForcingMoves` masks
White's 7th rank (bits 48..55) but then shifts right by 56, so it is always
zero: adding a White pawn on a7 (square 48) to a bare-kings position leaves
the count at 0 instead of raising it by 2, while the spec's description of
the count gives 2. -/
theorem C6_forcing_moves_pawn_term_bug :
    getPieces advPawnBoard WHITE PAWNS = insert 48 (getPieces kingsOnlyBoard WHITE PAWNS) ∧
    countForcingMoves kingsOnlyBoard WHITE = 0 ∧
    countForcingMoves advPawnBoard WHITE = 0 ∧
    countForcingMovesSpec advPawnBoard WHITE = 2 := by decide

/-- C4 (counterexample): on the bare-kings position with three Black queens
the material differential is −2700, whose absolute value exceeds 2500, yet
the endgame block runs: `is_endgame` is true and `opposition_status` is
written (to 30), against the claim's absolute-value gate. -/
theorem C4_counterexample :
    (analyzeImbalances PlayingStyle.CLASSICAL bigBlackBoard).material = -2700 ∧
    (analyzeImbalances PlayingStyle.CLASSICAL bigBlackBoard).is_endgame = true ∧
    (analyzeImbalances PlayingStyle.CLASSICAL bigBlackBoard).opposition_status = 30 := by decide

/-- C4 (amended): the endgame block of `analyzeImbalances` runs exactly when
the SIGNED material differential is below 2500 (so also for any Black
material advantage): `is_endgame` is true iff material < 2500; when the gate
is open the endgame fields hold the two `evaluateEndgame` scores and
`evaluateOpposition(WHITE)`, and one fifth of the endgame delta is folded
into pawn_structure; when the gate is closed those fields keep their zeroed
defaults and pawn_structure stays at its pre-endgame value. -/
theorem C4_endgame_gate_signed (style : PlayingStyle) (b : Board) :
    ((analyzeImbalances style b).is_endgame = true ↔
      (analyzeImbalances style b).material < 2500) ∧
    ((analyzeImbalances style b).material < 2500 →
      (analyzeImbalances style b).king_activity_white = evaluateEndgame b WHITE ∧
      (analyzeImbalances style b).king_activity_black = evaluateEndgame b BLACK ∧
      (analyzeImbalances style b).opposition_status = evaluateOpposition b WHITE ∧
      (analyzeImbalances style b).pawn_structure = pawnStructureScore b +
        Int.tdiv (evaluateEndgame b WHITE - evaluateEndgame b BLACK) 5) ∧
    (2500 ≤ (analyzeImbalances style b).material →
      (analyzeImbalances style b).king_activity_white = 0 ∧
      (analyzeImbalances style b).king_activity_black = 0 ∧
      (analyzeImbalances style b).opposition_status = 0 ∧
      (analyzeImbalances style b).pawn_structure = pawnStructureScore b) := by
  simp only [analyzeImbalances, calcDiscounts_material, calcDiscounts_pawn_structure,
    calcDiscounts_is_endgame, calcDiscounts_king_activity_white,
    calcDiscounts_king_activity_black, calcDiscounts_opposition_status]
  by_cases h : materialScore b < 2500 <;> simp [h]

theorem C4_witness :
    2500 ≤ (analyzeImbalances PlayingStyle.CLASSICAL bigWhiteBoard).material ∧
    (analyzeImbalances PlayingStyle.CLASSICAL bigWhiteBoard).king_activity_white = 0 ∧
    (analyzeImbalances PlayingStyle.CLASSICAL bigWhiteBoard).opposition_status = 0 := by
  refine ⟨by decide, ?_, ?_⟩
  · exact ((C4_endgame_gate_signed PlayingStyle.CLASSICAL bigWhiteBoard).2.2 (by decide)).1
  · exact ((C4_endgame_gate_signed PlayingStyle.CLASSICAL bigWhiteBoard).2.2 (by decide)).2.2.1

/-- C8 (confirmed): for every position and side, the `PawnStructure` record
produced by `analyzePawnStructure` satisfies
isolated_count + connected_count = total pawn count, since the source sets
connected_count to popcount minus isolated_count. -/
theorem C8_isolated_connected_total (b : Board) (color : Nat) :
    (analyzePawnStructure b color).isolated_count +
      (analyzePawnStructure b color).connected_count =
      ((getPieces b color PAWNS).card : Int) := by
  simp only [analyzePawnStructure]
  ring

/-- C9 (confirmed): `calculatePositionalDiscounts` overwrites rather than
combines the king-safety discount: for every record and style the final value
is −50 whenever White's king is exposed (even if Black's is too, since the
White check runs second), +50 when only Black's king is exposed, and the
prior value otherwise. -/
theorem C9_king_safety_discount_overwrite (ia : ImbalanceAnalysis) (style : PlayingStyle) :
    (calculatePositionalDiscounts ia style).king_safety_discount =
      if ia.white_king_exposed then -50
      else if ia.black_king_exposed then 50
      else ia.king_safety_discount :=
  calcDiscounts_king_safety_discount ia style

/-- C10 (confirmed): in every record returned by `analyzeImbalances` the
pawn_storm flag equals the opposite_castling flag, and when opposite castling
is not detected the pawn-storm strength keeps its zeroed default and (absent
the king-exposure overwrites) so does the king-safety discount. -/
theorem C10_pawn_storm_iff_opposite_castling (style : PlayingStyle) (b : Board) :
    ((analyzeImbalances style b).pawn_storm =
      (analyzeImbalances style b).opposite_castling) ∧
    ((analyzeImbalances style b).opposite_castling = false →
      (analyzeImbalances style b).pawn_storm_strength = 0 ∧
      ((analyzeImbalances style b).white_king_exposed = false →
        (analyzeImbalances style b).black_king_exposed = false →
        (analyzeImbalances style b).king_safety_discount = 0)) := by
  simp only [analyzeImbalances, calcDiscounts_pawn_storm, calcDiscounts_opposite_castling,
    calcDiscounts_pawn_storm_strength, calcDiscounts_white_king_exposed,
    calcDiscounts_black_king_exposed, calcDiscounts_king_safety_discount]
  refine ⟨by trivial, fun h => ?_⟩
  simp only [h]
  refine ⟨by simp, fun hw hb => ?_⟩
  simp [hw, hb]

theorem C10_witness :
    (analyzeImbalances PlayingStyle.CLASSICAL kingsOnlyBoard).opposite_castling = false ∧
    (analyzeImbalances PlayingStyle.CLASSICAL kingsOnlyBoard).pawn_storm_strength = 0 := by
  refine ⟨by decide, ?_⟩
  exact ((C10_pawn_storm_iff_opposite_castling PlayingStyle.CLASSICAL kingsOnlyBoard).2
    (by decide)).1


/-- C7 (counterexample): with a lone White knight on b1 (its own back rank)
and bare kings, White to move, `evaluateInitiative` of the color-mirrored
position for the mirrored side differs from the original value (47 versus
44: the Black back-rank mask omits rank 8, so the mirrored knight counts as
active), and the White-minus-Black initiative delta does not negate under
mirroring. -/
theorem C7_counterexample :
    evaluateInitiative (Board.mirror knightB1Board) BLACK ≠
      evaluateInitiative knightB1Board WHITE ∧
    evaluateInitiative (Board.mirror knightB1Board) WHITE -
        evaluateInitiative (Board.mirror knightB1Board) BLACK ≠
      -(evaluateInitiative knightB1Board WHITE - evaluateInitiative knightB1Board BLACK) := by
  decide

/-- C7 (amended): `evaluateInitiative` is antisymmetric under swapping the
side to move and color-mirroring the position, provided the position avoids
the source's asymmetries: no pawn stands on the opponent's back rank, no
knight, bishop, rook or queen stands on its own side's back rank, and no
pawn, knight or bishop of either side stands on the eight squares where the
extended-center set is not mirror-symmetric (c4, f5, d3, e6 and their
reflections c5, f4, d6, e3); then the White-minus-Black initiative delta
negates under mirroring. -/
theorem C7_initiative_mirror_antisymmetry_restricted (b : Board) (hwf : b.wf)
    (hstm : b.playerToMove < 2)
    (hwp : getPieces b WHITE PAWNS ∩ rankMask 7 = ∅)
    (hbp : getPieces b BLACK PAWNS ∩ rankMask 0 = ∅)
    (hwback : (getPieces b WHITE KNIGHTS ∪ getPieces b WHITE BISHOPS ∪
      getPieces b WHITE ROOKS ∪ getPieces b WHITE QUEENS) ∩ rankMask 0 = ∅)
    (hbback : (getPieces b BLACK KNIGHTS ∪ getPieces b BLACK BISHOPS ∪
      getPieces b BLACK ROOKS ∪ getPieces b BLACK QUEENS) ∩ rankMask 7 = ∅)
    (hwc : (getPieces b WHITE PAWNS ∪ (getPieces b WHITE KNIGHTS ∪
      getPieces b WHITE BISHOPS)) ∩ asymCenterSquares = ∅)
    (hbc : (getPieces b BLACK PAWNS ∪ (getPieces b BLACK KNIGHTS ∪
      getPieces b BLACK BISHOPS)) ∩ asymCenterSquares = ∅) :
    (∀ c < 2, evaluateInitiative b.mirror (1 - c) = evaluateInitiative b c) ∧
    evaluateInitiative b.mirror WHITE - evaluateInitiative b.mirror BLACK =
      -(evaluateInitiative b WHITE - evaluateInitiative b BLACK) := by
  have hw := evaluateInitiative_mirror_white b hwf hstm hwp hbp hwback hwc
  have hb2 := evaluateInitiative_mirror_black b hwf hstm hwp hbp hbback hbc
  constructor
  · intro c hc
    rcases (by omega : c = 0 ∨ c = 1) with rfl | rfl
    · exact hw
    · exact hb2
  · rw [hw, hb2]
    ring

theorem C7_witness :
    Board.wf devBoard ∧ devBoard.playerToMove < 2 ∧
    evaluateInitiative (Board.mirror devBoard) BLACK = evaluateInitiative devBoard WHITE := by
  refine ⟨by decide, by decide, ?_⟩
  exact (C7_initiative_mirror_antisymmetry_restricted devBoard (by decide) (by decide)
    (by decide) (by decide) (by decide) (by decide) (by decide) (by decide)).1 0 (by omega)

end HumanEval
